import Mathlib

/-!
Shallow embedding of the parallax-occlusion-mapping (POM) shader core of the
repository (src/src/shaders/POM-fragment.glsl and src/src/shaders/POM-vertex.glsl).

GLSL float arithmetic is idealised as exact arithmetic over a linear ordered
field (instantiated at the rationals for concrete evaluation, and at the reals
for the functions that genuinely need square roots or fractional powers:
`normalize`, `length`, `pow(x, 0.125)`).  GLSL's `textureGrad`/`texture2D`
lookups are modelled as explicit function parameters (a height field is a
function of the texture coordinates and the two screen-space derivative
vectors).  Loops with a `break` are modelled by structural recursion on the
iteration budget, checking the break condition before every iteration exactly
as the source does.
-/

namespace POM

/-- A GLSL `vec2`. -/
structure Vec2 (α : Type*) where
  x : α
  y : α
deriving DecidableEq

/-- A GLSL `vec3`. -/
structure Vec3 (α : Type*) where
  x : α
  y : α
  z : α
deriving DecidableEq

variable {α : Type*} [LinearOrderedField α]

/-- Componentwise subtraction of `vec2`. -/
def Vec2.sub (p q : Vec2 α) : Vec2 α := ⟨p.x - q.x, p.y - q.y⟩

/-- Componentwise addition of `vec2`. -/
def Vec2.add (p q : Vec2 α) : Vec2 α := ⟨p.x + q.x, p.y + q.y⟩

/-- Multiplication of a `vec2` by a scalar. -/
def Vec2.scale (p : Vec2 α) (c : α) : Vec2 α := ⟨p.x * c, p.y * c⟩

/-- GLSL `mix(x, y, a) = x*(1-a) + y*a` on scalars. -/
def glmix (x y a : α) : α := x * (1 - a) + y * a

/-- GLSL `mix` on `vec2`, componentwise. -/
def Vec2.mix (p q : Vec2 α) (a : α) : Vec2 α := ⟨glmix p.x q.x a, glmix p.y q.y a⟩

/-- The uniform parameters consumed by the fragment-shader height sampler and
ray marchers: the displacement texture (as a `textureGrad`-style function of
coordinates and both derivative vectors, returning the `.r` channel),
`uTextureRepeat`, `uParallaxOffset` and the shader-global `pomDisplacementScale`. -/
structure PomUniforms (α : Type*) where
  tex : Vec2 α → Vec2 α → Vec2 α → α
  uTextureRepeat : α
  uParallaxOffset : α
  pomDisplacementScale : α

/-- Function `getHeight` from POM-fragment.glsl (lines 42-47): scales the coordinates and
both screen-space derivatives by `uTextureRepeat`, samples the displacement
texture there, adds `uParallaxOffset` and multiplies by `pomDisplacementScale`. -/
def getHeight (u : PomUniforms α) (texCoords dx dy : Vec2 α) : α :=
  let repeatedCoords := texCoords.scale u.uTextureRepeat
  let repeatedDx := dx.scale u.uTextureRepeat
  let repeatedDy := dy.scale u.uTextureRepeat
  (u.tex repeatedCoords repeatedDx repeatedDy + u.uParallaxOffset) * u.pomDisplacementScale

/-- Ray-march bracket state: current and previous texture coordinates and layer
heights, as updated by the coarse search and the binary refinement. -/
structure MarchState (α : Type*) where
  currentTexCoords : Vec2 α
  currentLayerHeight : α
  prevTexCoords : Vec2 α
  prevLayerHeight : α
deriving DecidableEq

/-- One non-break iteration of the coarse search of
`standardParallaxOcclusionMap`: store the current sample as the previous
bracket, then advance by the fixed `layerDepth` and `deltaTexCoords`. -/
def stdCoarseStep (deltaTexCoords : Vec2 α) (layerDepth : α) (s : MarchState α) :
    MarchState α :=
  { currentTexCoords := s.currentTexCoords.sub deltaTexCoords
    currentLayerHeight := s.currentLayerHeight - layerDepth
    prevTexCoords := s.currentTexCoords
    prevLayerHeight := s.currentLayerHeight }

/-- The coarse-search loop of `standardParallaxOcclusionMap` (lines 66-79):
each iteration samples the height at the current coordinates, breaks once the
sampled height reaches the current layer height, and otherwise performs one
`stdCoarseStep`.  The `fuel` argument is the loop budget `numLayers`. -/
def stdCoarseLoop (u : PomUniforms α) (dx dy deltaTexCoords : Vec2 α)
    (layerDepth : α) : ℕ → MarchState α → MarchState α
  | 0, s => s
  | fuel + 1, s =>
    if getHeight u s.currentTexCoords dx dy ≥ s.currentLayerHeight then s
    else stdCoarseLoop u dx dy deltaTexCoords layerDepth fuel
      (stdCoarseStep deltaTexCoords layerDepth s)

/-- One binary-refinement ("Interval Mapping") step, shared verbatim by the
standard and terrain marches: sample the bracket midpoint and replace the
bracket endpoint the midpoint belongs to. -/
def refineStep (u : PomUniforms α) (dx dy : Vec2 α) (s : MarchState α) :
    MarchState α :=
  let midTexCoords := s.currentTexCoords.mix s.prevTexCoords (1 / 2)
  let midLayerHeight := glmix s.currentLayerHeight s.prevLayerHeight (1 / 2)
  if getHeight u midTexCoords dx dy < midLayerHeight then
    { s with prevTexCoords := midTexCoords, prevLayerHeight := midLayerHeight }
  else
    { s with currentTexCoords := midTexCoords, currentLayerHeight := midLayerHeight }

/-- The binary-refinement loop: a fixed number of `refineStep`s
(6 in the standard march, 8 in the terrain march). -/
def refineLoop (u : PomUniforms α) (dx dy : Vec2 α) : ℕ → MarchState α → MarchState α
  | 0, s => s
  | n + 1, s => refineLoop u dx dy n (refineStep u dx dy s)

/-- The denominator `afterDepth - beforeDepth` of the final linear
interpolation (lines 97-100 and 167-170), computed from the post-refinement
bracket state. -/
def finalDenom (u : PomUniforms α) (dx dy : Vec2 α) (s : MarchState α) : α :=
  (getHeight u s.currentTexCoords dx dy - s.currentLayerHeight) -
    (getHeight u s.prevTexCoords dx dy - s.prevLayerHeight)

/-- The final-interpolation weight `afterDepth / (afterDepth - beforeDepth)`
exactly as the source computes it: an unguarded division. -/
def finalWeight (u : PomUniforms α) (dx dy : Vec2 α) (s : MarchState α) : α :=
  (getHeight u s.currentTexCoords dx dy - s.currentLayerHeight) / finalDenom u dx dy s

/-- Final linear interpolation and bounds test shared by both marches: returns
`vec3(finalTexCoords, alpha)` with `alpha = 0` iff a component of
`finalTexCoords` leaves `[0,1]`, and `alpha = 1` otherwise. -/
def finalize (u : PomUniforms α) (dx dy : Vec2 α) (s : MarchState α) : Vec3 α :=
  let weight := finalWeight u dx dy s
  let finalTexCoords := s.currentTexCoords.mix s.prevTexCoords weight
  let alpha : α :=
    if finalTexCoords.x < 0 ∨ finalTexCoords.x > 1 ∨
        finalTexCoords.y < 0 ∨ finalTexCoords.y > 1 then 0 else 1
  ⟨finalTexCoords.x, finalTexCoords.y, alpha⟩

/-- The bracket state produced by `standardParallaxOcclusionMap` just before
its final interpolation: the coarse search (budget `numLayers`) followed by 6
refinement steps, starting from the fragment UV at the top layer height. -/
def standardPOMFinalState (u : PomUniforms α) (vUv : Vec2 α) (V : Vec3 α)
    (dx dy : Vec2 α) (numLayers : ℕ) : MarchState α :=
  let P : Vec2 α := ⟨V.x / max V.z (1 / 100000) * u.pomDisplacementScale,
                     V.y / max V.z (1 / 100000) * u.pomDisplacementScale⟩
  let deltaTexCoords : Vec2 α := ⟨P.x / (numLayers : α), P.y / (numLayers : α)⟩
  let layerDepth := u.pomDisplacementScale / (numLayers : α)
  let s0 : MarchState α := ⟨vUv, u.pomDisplacementScale, vUv, u.pomDisplacementScale⟩
  refineLoop u dx dy 6 (stdCoarseLoop u dx dy deltaTexCoords layerDepth numLayers s0)

/-- Function `standardParallaxOcclusionMap` from POM-fragment.glsl (lines 52-109):
coarse search, 6 binary-refinement steps, final linear interpolation and the
bounds/alpha test.  Returns `vec3(finalTexCoords, alpha)`. -/
def standardParallaxOcclusionMap (u : PomUniforms α) (vUv : Vec2 α) (V : Vec3 α)
    (dx dy : Vec2 α) (numLayers : ℕ) : Vec3 α :=
  finalize u dx dy (standardPOMFinalState u vUv V dx dy numLayers)

/-- Ray-march state of `terrainParallaxOcclusionMap`, which additionally
carries the height sampled at the current coordinates across iterations. -/
structure TerrainState (α : Type*) where
  currentTexCoords : Vec2 α
  currentLayerHeight : α
  currentDepthMapValue : α
  prevTexCoords : Vec2 α
  prevLayerHeight : α
deriving DecidableEq

/-- Forget the carried height sample, keeping the bracket (used when handing
the terrain march's coarse result to the shared refinement loop). -/
def TerrainState.toMarchState (s : TerrainState α) : MarchState α :=
  ⟨s.currentTexCoords, s.currentLayerHeight, s.prevTexCoords, s.prevLayerHeight⟩

/-- One non-break iteration of the terrain coarse search (lines 129-149):
samples the height one step ahead, modulates the layer-height decrement by
`1 + 2 * surfaceSlope`, and advances. -/
def terrainCoarseStep (u : PomUniforms α) (dx dy deltaTexCoords : Vec2 α)
    (numLayers : α) (s : TerrainState α) : TerrainState α :=
  let nextTexCoords := s.currentTexCoords.sub deltaTexCoords
  let nextDepthMapValue := getHeight u nextTexCoords dx dy
  let surfaceSlope := nextDepthMapValue - s.currentDepthMapValue
  let dynamicLayerDepth := u.pomDisplacementScale / numLayers * (1 + surfaceSlope * 2)
  { currentTexCoords := nextTexCoords
    currentLayerHeight := s.currentLayerHeight - dynamicLayerDepth
    currentDepthMapValue := nextDepthMapValue
    prevTexCoords := s.currentTexCoords
    prevLayerHeight := s.currentLayerHeight }

/-- The terrain coarse-search loop: breaks once the carried height sample
reaches the current layer height, otherwise performs one `terrainCoarseStep`. -/
def terrainCoarseLoop (u : PomUniforms α) (dx dy deltaTexCoords : Vec2 α)
    (numLayers : α) : ℕ → TerrainState α → TerrainState α
  | 0, s => s
  | fuel + 1, s =>
    if s.currentDepthMapValue ≥ s.currentLayerHeight then s
    else terrainCoarseLoop u dx dy deltaTexCoords numLayers fuel
      (terrainCoarseStep u dx dy deltaTexCoords numLayers s)

/-- The bracket state produced by `terrainParallaxOcclusionMap` just before its
final interpolation: terrain coarse search followed by 8 refinement steps.
The step direction uses `reducedVz = mix(0.55, 1.0, abs(V.z))` as in the
source (the computed-but-unused `smoothVz` of line 114 is omitted). -/
def terrainPOMFinalState (u : PomUniforms α) (vUv : Vec2 α) (V : Vec3 α)
    (dx dy : Vec2 α) (numLayers : ℕ) : MarchState α :=
  let reducedVz := glmix (11 / 20) 1 |V.z|
  let P : Vec2 α := ⟨V.x / reducedVz * u.pomDisplacementScale,
                     V.y / reducedVz * u.pomDisplacementScale⟩
  let deltaTexCoords : Vec2 α := ⟨P.x / (numLayers : α), P.y / (numLayers : α)⟩
  let s0 : TerrainState α :=
    ⟨vUv, u.pomDisplacementScale, getHeight u vUv dx dy, vUv, u.pomDisplacementScale⟩
  refineLoop u dx dy 8
    (terrainCoarseLoop u dx dy deltaTexCoords (numLayers : α) numLayers s0).toMarchState

/-- Function `terrainParallaxOcclusionMap` from POM-fragment.glsl (lines 112-180). -/
def terrainParallaxOcclusionMap (u : PomUniforms α) (vUv : Vec2 α) (V : Vec3 α)
    (dx dy : Vec2 α) (numLayers : ℕ) : Vec3 α :=
  finalize u dx dy (terrainPOMFinalState u vUv V dx dy numLayers)

/-- The Shading Compositor's discard gate (POM-fragment.glsl line 277):
a fragment with `alpha < 0.5` is discarded and contributes no color. -/
def mainDiscards (alpha : α) : Prop := alpha < 1 / 2

instance (alpha : α) : Decidable (mainDiscards alpha) := by
  unfold mainDiscards; infer_instance

/-- State of the self-shadow ray march of `getShadow`: accumulated occlusion,
the ray's current height and texture coordinates, and (as instrumentation of
the embedding, not a source value) the number of texture samples taken. -/
structure ShadowState (α : Type*) where
  shadow : α
  currentRayHeight : α
  currentTexCoords : Vec2 α
  samples : ℕ
deriving DecidableEq

/-- The shadow-march loop of `getShadow` (lines 197-211): stop early once the
ray leaves the height range or the generous UV margin `[-0.5, 1.5]`; otherwise
sample the height field at the repeat-scaled coordinates and accumulate one
unit of occlusion whenever the ray is below the surface, without breaking. -/
def shadowLoop (u : PomUniforms α) (rayStep : α) (texStep repeatedDx repeatedDy : Vec2 α) :
    ℕ → ShadowState α → ShadowState α
  | 0, s => s
  | fuel + 1, s =>
    if s.currentRayHeight > 1 ∨ s.currentTexCoords.x < -(1 / 2) ∨
        s.currentTexCoords.x > 3 / 2 ∨ s.currentTexCoords.y < -(1 / 2) ∨
        s.currentTexCoords.y > 3 / 2 then s
    else
      let repeatedTexCoords := s.currentTexCoords.scale u.uTextureRepeat
      let heightAtSample := u.tex repeatedTexCoords repeatedDx repeatedDy + u.uParallaxOffset
      let occl := if s.currentRayHeight < heightAtSample then s.shadow + 1 else s.shadow
      shadowLoop u rayStep texStep repeatedDx repeatedDy fuel
        ⟨occl, s.currentRayHeight + rayStep, s.currentTexCoords.add texStep, s.samples + 1⟩

/-- Function `getShadow` from POM-fragment.glsl (lines 182-214), instrumented to also
report how many texture samples the march performed: `lightDir.z ≤ 0` returns
full shadow `(0, 0 samples)` immediately; otherwise the march runs and the
final factor is `1 - min(occlusion / uShadowHardness, 1)`. -/
def getShadowRun (u : PomUniforms α) (uShadowHardness : α)
    (surfacePos tangentLightDir : Vec3 α) (dx dy : Vec2 α) (numLayers : ℕ) : α × ℕ :=
  if tangentLightDir.z ≤ 0 then (0, 0)
  else
    let rayStep := 1 / (numLayers : α)
    let texStep : Vec2 α :=
      ⟨rayStep * (tangentLightDir.x / max tangentLightDir.z (1 / 100000)) * u.pomDisplacementScale,
       rayStep * (tangentLightDir.y / max tangentLightDir.z (1 / 100000)) * u.pomDisplacementScale⟩
    let s0 : ShadowState α :=
      ⟨0, surfacePos.z + rayStep, ⟨surfacePos.x + texStep.x, surfacePos.y + texStep.y⟩, 0⟩
    let sEnd := shadowLoop u rayStep texStep (dx.scale u.uTextureRepeat)
      (dy.scale u.uTextureRepeat) numLayers s0
    (1 - min (sEnd.shadow / uShadowHardness) 1, sEnd.samples)

/-- The shadow factor returned by `getShadow`. -/
def getShadow (u : PomUniforms α) (uShadowHardness : α)
    (surfacePos tangentLightDir : Vec3 α) (dx dy : Vec2 α) (numLayers : ℕ) : α :=
  (getShadowRun u uShadowHardness surfacePos tangentLightDir dx dy numLayers).1

/-- The number of texture samples performed by `getShadow`. -/
def getShadowSamples (u : PomUniforms α) (uShadowHardness : α)
    (surfacePos tangentLightDir : Vec3 α) (dx dy : Vec2 α) (numLayers : ℕ) : ℕ :=
  (getShadowRun u uShadowHardness surfacePos tangentLightDir dx dy numLayers).2

/-- Componentwise subtraction of `vec3`. -/
def Vec3.sub (a b : Vec3 α) : Vec3 α := ⟨a.x - b.x, a.y - b.y, a.z - b.z⟩

/-- Componentwise addition of `vec3`. -/
def Vec3.add (a b : Vec3 α) : Vec3 α := ⟨a.x + b.x, a.y + b.y, a.z + b.z⟩

/-- Multiplication of a `vec3` by a scalar. -/
def Vec3.scale (a : Vec3 α) (c : α) : Vec3 α := ⟨a.x * c, a.y * c, a.z * c⟩

/-- Negation of a `vec3`. -/
def Vec3.neg (a : Vec3 α) : Vec3 α := ⟨-a.x, -a.y, -a.z⟩

/-- GLSL `dot` on `vec3`. -/
def dot3 (a b : Vec3 α) : α := a.x * b.x + a.y * b.y + a.z * b.z

/-- GLSL `cross`. -/
def cross3 (a b : Vec3 α) : Vec3 α :=
  ⟨a.y * b.z - a.z * b.y, a.z * b.x - a.x * b.z, a.x * b.y - a.y * b.x⟩

/-- A GLSL `mat3`, stored as its three columns. -/
structure Mat3 (α : Type*) where
  c0 : Vec3 α
  c1 : Vec3 α
  c2 : Vec3 α
deriving DecidableEq

/-- GLSL column-matrix times vector. -/
def Mat3.mulVec (M : Mat3 α) (v : Vec3 α) : Vec3 α :=
  ((M.c0.scale v.x).add (M.c1.scale v.y)).add (M.c2.scale v.z)

/-- The per-vertex inputs of the Tangent Frame Builder of POM-vertex.glsl:
the vertex displacement texture (`texture2D(...).r` as a function of the
coordinates), its scale, and the model matrix.  GLSL `normalize` is passed in
separately as an abstract primitive `nrm` since it involves a square root. -/
structure VertexUniforms (α : Type*) where
  vtex : Vec2 α → α
  uVertexDisplacementScale : α
  modelMatrix : Mat3 α

/-- The undisplaced base frame built by the guard branch of both
`calculateTBN` and `calculateSmoothTBN` (POM-vertex.glsl lines 20-25 and
61-66): world-space tangent, bitangent and normal from the raw attributes. -/
def baseTBN (nrm : Vec3 α → Vec3 α) (u : VertexUniforms α)
    (norm tang : Vec3 α) (tangentW : α) : Mat3 α :=
  let worldNormal := nrm (u.modelMatrix.mulVec norm)
  let worldTangent := nrm (u.modelMatrix.mulVec tang)
  let worldBitangent := (cross3 worldNormal worldTangent).scale tangentW
  ⟨worldTangent, worldBitangent, worldNormal⟩

/-- Function `calculateTBN` from POM-vertex.glsl (lines 18-56), instrumented with the
number of displacement-texture samples taken (second component): the guard
branch for `uVertexDisplacementScale < 0.001` returns the base frame with no
samples; otherwise the frame is perturbed by forward-difference height
gradients (3 samples). -/
def calculateTBNRun (nrm : Vec3 α → Vec3 α) (u : VertexUniforms α)
    (pos norm tang : Vec3 α) (tangentW : α) (texCoord : Vec2 α) : Mat3 α × ℕ :=
  if u.uVertexDisplacementScale < 1 / 1000 then
    (baseTBN nrm u norm tang tangentW, 0)
  else
    let texelSize : α := 1 / 512
    let h := u.vtex texCoord
    let hRight := u.vtex ⟨texCoord.x + texelSize, texCoord.y⟩
    let hUp := u.vtex ⟨texCoord.x, texCoord.y + texelSize⟩
    let dhdu := (hRight - h) * u.uVertexDisplacementScale / texelSize
    let dhdv := (hUp - h) * u.uVertexDisplacementScale / texelSize
    let T := nrm tang
    let N := nrm norm
    let B := (nrm (cross3 N T)).scale tangentW
    let perturbedNormal := nrm ((N.sub (T.scale dhdu)).sub (B.scale dhdv))
    let newTangent := nrm (T.sub (perturbedNormal.scale (dot3 T perturbedNormal)))
    let newBitangent := (cross3 perturbedNormal newTangent).scale tangentW
    let worldT := nrm (u.modelMatrix.mulVec newTangent)
    let worldB := nrm (u.modelMatrix.mulVec newBitangent)
    let worldN := nrm (u.modelMatrix.mulVec perturbedNormal)
    (⟨worldT, worldB, worldN⟩, 3)

/-- Function `calculateSmoothTBN` from POM-vertex.glsl (lines 59-114), instrumented with
the number of displacement-texture samples taken: the guard branch for
`uVertexDisplacementScale < 0.001` returns the base frame with no samples;
otherwise the frame is rebuilt from five-point sampling of the displaced
surface (5 samples).  The central-difference locals `dhdu`/`dhdv` of lines
79-80 are dead in the source (never read) and are omitted. -/
def calculateSmoothTBNRun (nrm : Vec3 α → Vec3 α) (u : VertexUniforms α)
    (pos norm tang : Vec3 α) (tangentW : α) (texCoord : Vec2 α) : Mat3 α × ℕ :=
  if u.uVertexDisplacementScale < 1 / 1000 then
    (baseTBN nrm u norm tang tangentW, 0)
  else
    let texelSize : α := 1 / 1024
    let h := u.vtex texCoord
    let hRight := u.vtex ⟨texCoord.x + texelSize, texCoord.y⟩
    let hUp := u.vtex ⟨texCoord.x, texCoord.y + texelSize⟩
    let T := nrm tang
    let N := nrm norm
    let B := (nrm (cross3 N T)).scale tangentW
    let currentPos := pos.add (N.scale (h * u.uVertexDisplacementScale))
    let rightPos := (pos.add (T.scale texelSize)).add
      (N.scale (hRight * u.uVertexDisplacementScale))
    let upPos := (pos.add (B.scale texelSize)).add
      (N.scale (hUp * u.uVertexDisplacementScale))
    let displacedTangent := nrm (rightPos.sub currentPos)
    let displacedBitangent := nrm (upPos.sub currentPos)
    let dispNormal0 := nrm (cross3 displacedTangent displacedBitangent)
    let displacedNormal := if dot3 dispNormal0 N < 0 then dispNormal0.neg else dispNormal0
    let displacedTangent2 :=
      nrm (displacedTangent.sub (displacedNormal.scale (dot3 displacedTangent displacedNormal)))
    let displacedBitangent2 := (cross3 displacedNormal displacedTangent2).scale tangentW
    let worldT := nrm (u.modelMatrix.mulVec displacedTangent2)
    let worldB := nrm (u.modelMatrix.mulVec displacedBitangent2)
    let worldN := nrm (u.modelMatrix.mulVec displacedNormal)
    (⟨worldT, worldB, worldN⟩, 5)

/-- The frame returned by `calculateTBN`. -/
def calculateTBN (nrm : Vec3 α → Vec3 α) (u : VertexUniforms α)
    (pos norm tang : Vec3 α) (tangentW : α) (texCoord : Vec2 α) : Mat3 α :=
  (calculateTBNRun nrm u pos norm tang tangentW texCoord).1

/-- The frame returned by `calculateSmoothTBN`. -/
def calculateSmoothTBN (nrm : Vec3 α → Vec3 α) (u : VertexUniforms α)
    (pos norm tang : Vec3 α) (tangentW : α) (texCoord : Vec2 α) : Mat3 α :=
  (calculateSmoothTBNRun nrm u pos norm tang tangentW texCoord).1

end POM

namespace POM

/-! Real-valued part of the embedding: the Adaptive Quality Controller masks
(which use `pow(x, 0.125)` and `pow(x, 2.0)`) and `main`'s light-direction
pipeline (which uses `normalize`/`length`, i.e. square roots). -/

noncomputable section RealModel

open Real

/-- GLSL `clamp`. -/
def clampR (x lo hi : ℝ) : ℝ := min (max x lo) hi

/-- GLSL `smoothstep(e0, e1, x)`. -/
def smoothstepR (e0 e1 x : ℝ) : ℝ :=
  let t := clampR ((x - e0) / (e1 - e0)) 0 1
  t * t * (3 - 2 * t)

/-- GLSL `pow` on nonneg bases, modelled by the real power function. -/
def powR (x y : ℝ) : ℝ := x ^ y

/-- GLSL `length` of a `vec3`. -/
def length3R (v : Vec3 ℝ) : ℝ := Real.sqrt (v.x ^ 2 + v.y ^ 2 + v.z ^ 2)

/-- GLSL `normalize` of a `vec3`. -/
def normalize3R (v : Vec3 ℝ) : Vec3 ℝ :=
  ⟨v.x / length3R v, v.y / length3R v, v.z / length3R v⟩

/-- Function `angleMask` from POM-fragment.glsl (lines 217-221). -/
def angleMask (worldNormal worldViewDir : Vec3 ℝ) : ℝ :=
  let angle := dot3 worldNormal worldViewDir
  powR (1 - smoothstepR 0 1 angle) 2

/-- Function `distanceMask` from POM-fragment.glsl (lines 224-228). -/
def distanceMask (worldPosition cameraPosition : Vec3 ℝ) : ℝ :=
  let dist := length3R (worldPosition.sub cameraPosition)
  1 - powR (smoothstepR 0 1 dist) (1 / 8)

/-- The layer count computed by `main` (POM-fragment.glsl lines 241-254):
`mix(uMinLayers, uMaxLayers, angleMask * distanceMask)` in adaptive mode and
`uMaxLayers` in fixed mode. -/
def mainNumLayers (uUseDynamicLayers : Bool) (uMinLayers uMaxLayers : ℝ)
    (N worldViewDir vWorldPosition uCameraPosition : Vec3 ℝ) : ℝ :=
  let angleMaskValue := angleMask N worldViewDir
  let distanceMaskValue := distanceMask vWorldPosition uCameraPosition
  let combinedMask := angleMaskValue * distanceMaskValue
  if uUseDynamicLayers then glmix uMinLayers uMaxLayers combinedMask else uMaxLayers

/-- Transformation into tangent space: `transpose(tbnMatrix) * v` for the TBN
matrix with columns `T`, `B`, `N`. -/
def toTangent (T B N v : Vec3 ℝ) : Vec3 ℝ := ⟨dot3 T v, dot3 B v, dot3 N v⟩

/-- The vector handed to the final `normalize` of `main`'s world light-direction
boost (POM-fragment.glsl lines 293-307): the normalized `uLightDirection`, with
its z component replaced by `minLightZ = (1.0 + uParallaxOffset) + 0.5` when it
is below that bound. -/
def boostedWorldPreNormalize (uLightDirection : Vec3 ℝ) (uParallaxOffset : ℝ) : Vec3 ℝ :=
  let maxSurfaceHeight := 1 + uParallaxOffset
  let minLightZ := maxSurfaceHeight + 1 / 2
  let worldLightDir := normalize3R uLightDirection
  if worldLightDir.z < minLightZ then ⟨worldLightDir.x, worldLightDir.y, minLightZ⟩
  else worldLightDir

/-- The boosted world light direction `main` uses (lines 293-307): the
normalization of `boostedWorldPreNormalize` when the boost branch fires, the
already-normalized direction otherwise. -/
def boostedWorldLightDir (uLightDirection : Vec3 ℝ) (uParallaxOffset : ℝ) : Vec3 ℝ :=
  let maxSurfaceHeight := 1 + uParallaxOffset
  let minLightZ := maxSurfaceHeight + 1 / 2
  let worldLightDir := normalize3R uLightDirection
  if worldLightDir.z < minLightZ then
    normalize3R ⟨worldLightDir.x, worldLightDir.y, minLightZ⟩
  else worldLightDir

/-- The vector handed to the final `normalize` of `main`'s tangent light-space
safety clamp (lines 309-315): the normalized tangent-space light direction,
with its z component replaced by `minTangentLightZ = 0.2` when below it. -/
def tangentLightPreNormalize (T B N worldLightDir : Vec3 ℝ) : Vec3 ℝ :=
  let t := normalize3R (toTangent T B N worldLightDir)
  if t.z < 1 / 5 then ⟨t.x, t.y, 1 / 5⟩ else t

/-- The tangent-space light direction `main` finally passes to `getShadow`
(lines 309-324). -/
def adjustedTangentLightDir (T B N worldLightDir : Vec3 ℝ) : Vec3 ℝ :=
  let t := normalize3R (toTangent T B N worldLightDir)
  if t.z < 1 / 5 then normalize3R ⟨t.x, t.y, 1 / 5⟩ else t

end RealModel

/-! Concrete fixtures used by counterexamples and witnesses. -/

/-- A height texture that is constant everywhere. -/
def constTex (c : ℚ) : Vec2 ℚ → Vec2 ℚ → Vec2 ℚ → ℚ := fun _ _ _ => c

/-- A height texture with a single downward step at `u = 1/2`. -/
def stepTex : Vec2 ℚ → Vec2 ℚ → Vec2 ℚ → ℚ := fun uv _ _ => if uv.x ≥ 1 / 2 then 9 / 10 else 0

/-- The identity model matrix over the rationals. -/
def idMat3 : Mat3 ℚ := ⟨⟨1, 0, 0⟩, ⟨0, 1, 0⟩, ⟨0, 0, 1⟩⟩

/-! Helper lemmas. -/

section Helpers

variable {α : Type*} [LinearOrderedField α]

/-- Mixing a value with itself gives it back, whatever the weight. -/
theorem glmix_self (a w : α) : glmix a a w = a := by unfold glmix; ring

/-- Mixing a `vec2` with itself gives it back, whatever the weight. -/
theorem Vec2.mix_self (p : Vec2 α) (w : α) : p.mix p w = p := by
  cases p; unfold Vec2.mix; rw [glmix_self, glmix_self]

/-- Subtracting the zero `vec2` is the identity. -/
theorem Vec2.sub_zero_vec (p : Vec2 α) : p.sub ⟨0, 0⟩ = p := by
  cases p; unfold Vec2.sub; rw [sub_zero, sub_zero]

/-- With a zero per-step UV offset, the standard coarse search never moves the
current or previous texture coordinates. -/
theorem stdCoarseLoop_uv_fixed (u : PomUniforms α) (dx dy : Vec2 α) (layerDepth : α)
    (p : Vec2 α) : ∀ (fuel : ℕ) (s : MarchState α),
    s.currentTexCoords = p → s.prevTexCoords = p →
    (stdCoarseLoop u dx dy ⟨0, 0⟩ layerDepth fuel s).currentTexCoords = p ∧
      (stdCoarseLoop u dx dy ⟨0, 0⟩ layerDepth fuel s).prevTexCoords = p := by
  intro fuel
  induction fuel with
  | zero => intro s h1 h2; exact ⟨h1, h2⟩
  | succ k ih =>
    intro s h1 h2
    unfold stdCoarseLoop
    split_ifs with hbr
    · exact ⟨h1, h2⟩
    · refine ih _ ?_ ?_
      · show (s.currentTexCoords.sub ⟨0, 0⟩) = p
        rw [Vec2.sub_zero_vec, h1]
      · exact h1

/-- The binary refinement never moves the texture coordinates of a bracket
whose two endpoints coincide at `p`. -/
theorem refineLoop_uv_fixed (u : PomUniforms α) (dx dy : Vec2 α) (p : Vec2 α) :
    ∀ (fuel : ℕ) (s : MarchState α),
    s.currentTexCoords = p → s.prevTexCoords = p →
    (refineLoop u dx dy fuel s).currentTexCoords = p ∧
      (refineLoop u dx dy fuel s).prevTexCoords = p := by
  intro fuel
  induction fuel with
  | zero => intro s h1 h2; exact ⟨h1, h2⟩
  | succ k ih =>
    intro s h1 h2
    unfold refineLoop refineStep
    dsimp only
    have hmid : s.currentTexCoords.mix s.prevTexCoords (1 / 2) = p := by
      rw [h1, h2, Vec2.mix_self]
    split_ifs with hcmp
    · exact ih _ h1 hmid
    · exact ih _ hmid h2

/-- The occlusion accumulator of the shadow march never becomes negative. -/
theorem shadowLoop_shadow_nonneg (u : PomUniforms α) (rayStep : α)
    (texStep repeatedDx repeatedDy : Vec2 α) : ∀ (fuel : ℕ) (s : ShadowState α),
    0 ≤ s.shadow →
    0 ≤ (shadowLoop u rayStep texStep repeatedDx repeatedDy fuel s).shadow := by
  intro fuel
  induction fuel with
  | zero => intro s hs; exact hs
  | succ k ih =>
    intro s hs
    unfold shadowLoop
    split_ifs with hbr
    · exact hs
    · refine ih _ ?_
      dsimp only
      split_ifs
      · linarith
      · exact hs

/-- Monotonicity in the hardness divisor and the unit-interval bound of the
final shadow-factor expression `1 - min(c / hardness, 1)`. -/
theorem hardnessFactor_mono_bounds (c h1 h2 : α) (hc : 0 ≤ c) (hpos : 0 < h1)
    (hh : h1 ≤ h2) :
    1 - min (c / h1) 1 ≤ 1 - min (c / h2) 1 ∧
      0 ≤ 1 - min (c / h1) 1 ∧ 1 - min (c / h1) 1 ≤ 1 := by
  have hdiv : c / h2 ≤ c / h1 := div_le_div_of_nonneg_left hc hpos hh
  have hmin : min (c / h2) 1 ≤ min (c / h1) 1 := min_le_min hdiv le_rfl
  have hup : min (c / h1) 1 ≤ 1 := min_le_right _ _
  have hlo : (0 : α) ≤ min (c / h1) 1 := le_min (div_nonneg hc hpos.le) zero_le_one
  exact ⟨by linarith, by linarith, by linarith⟩

/-- The visibility flag of `finalize` is `0` exactly when the interpolated UV
leaves the unit square, and `alpha = 0` trips the compositor's discard gate. -/
theorem finalize_alpha_spec (u : PomUniforms α) (dx dy : Vec2 α) (s : MarchState α) :
    ((finalize u dx dy s).z = 0 ↔
      ((finalize u dx dy s).x < 0 ∨ (finalize u dx dy s).x > 1 ∨
        (finalize u dx dy s).y < 0 ∨ (finalize u dx dy s).y > 1)) ∧
    ((finalize u dx dy s).z = 0 → mainDiscards (finalize u dx dy s).z) := by
  unfold finalize mainDiscards
  dsimp only
  split_ifs with hcond
  · exact ⟨by simpa using hcond, fun _ => by norm_num⟩
  · constructor
    · simp only [one_ne_zero, false_iff]
      exact hcond
    · intro h; exact absurd h one_ne_zero

/-- Every GLSL smoothstep value lies in `[0, 1]`. -/
theorem smoothstepR_mem_unit (e0 e1 x : ℝ) :
    0 ≤ smoothstepR e0 e1 x ∧ smoothstepR e0 e1 x ≤ 1 := by
  unfold smoothstepR clampR
  dsimp only
  set t := min (max ((x - e0) / (e1 - e0)) 0) 1 with ht
  have h0 : 0 ≤ t := le_min (le_max_right _ _) zero_le_one
  have h1 : t ≤ 1 := min_le_right _ _
  constructor
  · nlinarith
  · nlinarith [sq_nonneg (1 - t)]

/-- The value of `angleMask` lies in `[0, 1]`. -/
theorem angleMask_mem_unit (N V : Vec3 ℝ) : 0 ≤ angleMask N V ∧ angleMask N V ≤ 1 := by
  unfold angleMask powR
  have hs := smoothstepR_mem_unit 0 1 (dot3 N V)
  constructor
  · exact Real.rpow_nonneg (by linarith [hs.2]) 2
  · exact Real.rpow_le_one (by linarith [hs.2]) (by linarith [hs.1]) (by norm_num)

/-- The value of `distanceMask` lies in `[0, 1]`. -/
theorem distanceMask_mem_unit (P C : Vec3 ℝ) :
    0 ≤ distanceMask P C ∧ distanceMask P C ≤ 1 := by
  unfold distanceMask powR
  set d := length3R (P.sub C)
  have hs := smoothstepR_mem_unit 0 1 d
  have hp0 : (0:ℝ) ≤ smoothstepR 0 1 d ^ (1 / 8 : ℝ) := Real.rpow_nonneg hs.1 _
  have hp1 : smoothstepR 0 1 d ^ (1 / 8 : ℝ) ≤ 1 :=
    Real.rpow_le_one hs.1 hs.2 (by norm_num)
  constructor <;> linarith

/-- With a view direction whose tangent-plane components vanish, the standard
march's per-step UV offset is zero, so the returned UV is exactly the input UV
whatever the height field does. -/
theorem standardPOM_zero_xy_keeps_uv {α : Type*} [LinearOrderedField α]
    (u : PomUniforms α) (vUv : Vec2 α) (V : Vec3 α) (dx dy : Vec2 α) (n : ℕ)
    (hx : V.x = 0) (hy : V.y = 0) :
    (standardParallaxOcclusionMap u vUv V dx dy n).x = vUv.x ∧
      (standardParallaxOcclusionMap u vUv V dx dy n).y = vUv.y := by
  unfold standardParallaxOcclusionMap standardPOMFinalState
  dsimp only
  rw [hx, hy]
  simp only [zero_div, zero_mul]
  have hcl := stdCoarseLoop_uv_fixed u dx dy (u.pomDisplacementScale / (n : α)) vUv n
    ⟨vUv, u.pomDisplacementScale, vUv, u.pomDisplacementScale⟩ rfl rfl
  have hrl := refineLoop_uv_fixed u dx dy vUv 6 _ hcl.1 hcl.2
  unfold finalize
  dsimp only
  rw [hrl.1, hrl.2, Vec2.mix_self]
  exact ⟨rfl, rfl⟩

end Helpers

/-! The claims. -/

section Claims

variable {α : Type*} [LinearOrderedField α]

/-- Counterexample to claim C1: for the everywhere-constant height texture 1/2
(with repeat 1, parallax offset 0, displacement scale 1/10), the oblique view
direction `V = (1/2, 0, 1)` (which has `V.z > 0`) and 4 layers, the standard
march does not return the input UV `(1/2, 1/2)`: the x component moves. -/
theorem standardPOM_flat_field_offsets_uv :
    (0 : ℚ) < (⟨1 / 2, 0, 1⟩ : Vec3 ℚ).z ∧
      (standardParallaxOcclusionMap ⟨constTex (1 / 2), 1, 0, 1 / 10⟩ ⟨1 / 2, 1 / 2⟩
          ⟨1 / 2, 0, 1⟩ ⟨0, 0⟩ ⟨0, 0⟩ 4).x ≠ (⟨1 / 2, 1 / 2⟩ : Vec2 ℚ).x := by
  constructor
  · norm_num
  · norm_num [standardParallaxOcclusionMap, standardPOMFinalState, stdCoarseLoop,
      stdCoarseStep, refineLoop, refineStep, finalize, finalWeight, finalDenom,
      getHeight, constTex, Vec2.mix, Vec2.sub, Vec2.scale, glmix]

/-- Claim C1 (amended): for an everywhere-constant height field whose sampled
height stays strictly below the top layer height, the standard march returns
`finalUV = inputUV` for the straight-on view directions, i.e. those with
`viewDir.xy = (0, 0)` and `viewDir.z > 0`. -/
theorem standardPOM_flat_field_straight_view_identity
    (c off scale repeatFactor : α) (vUv : Vec2 α) (V : Vec3 α) (dx dy : Vec2 α) (n : ℕ)
    (hx : V.x = 0) (hy : V.y = 0) (hz : 0 < V.z) (hbelow : (c + off) * scale < scale) :
    (standardParallaxOcclusionMap ⟨fun _ _ _ => c, repeatFactor, off, scale⟩ vUv V dx dy n).x
        = vUv.x ∧
      (standardParallaxOcclusionMap ⟨fun _ _ _ => c, repeatFactor, off, scale⟩ vUv V dx dy n).y
        = vUv.y :=
  standardPOM_zero_xy_keeps_uv _ vUv V dx dy n hx hy

/-- Witness for the amended claim C1 at texture value 1/2, offset 0, scale 1/10,
input UV (1/2, 1/2), view (0, 0, 1) and 4 layers. -/
theorem standardPOM_flat_field_straight_view_identity_witness :
    ((⟨0, 0, 1⟩ : Vec3 ℚ).x = 0 ∧ (⟨0, 0, 1⟩ : Vec3 ℚ).y = 0 ∧
        (0 : ℚ) < (⟨0, 0, 1⟩ : Vec3 ℚ).z ∧ ((1 / 2 : ℚ) + 0) * (1 / 10) < 1 / 10) ∧
      ((standardParallaxOcclusionMap ⟨fun _ _ _ => (1 / 2 : ℚ), 1, 0, 1 / 10⟩ ⟨1 / 2, 1 / 2⟩
            ⟨0, 0, 1⟩ ⟨0, 0⟩ ⟨0, 0⟩ 4).x = (⟨1 / 2, 1 / 2⟩ : Vec2 ℚ).x ∧
        (standardParallaxOcclusionMap ⟨fun _ _ _ => (1 / 2 : ℚ), 1, 0, 1 / 10⟩ ⟨1 / 2, 1 / 2⟩
            ⟨0, 0, 1⟩ ⟨0, 0⟩ ⟨0, 0⟩ 4).y = (⟨1 / 2, 1 / 2⟩ : Vec2 ℚ).y) :=
  ⟨⟨rfl, rfl, by norm_num, by norm_num⟩,
    standardPOM_flat_field_straight_view_identity (1 / 2) 0 (1 / 10) 1 ⟨1 / 2, 1 / 2⟩
      ⟨0, 0, 1⟩ ⟨0, 0⟩ ⟨0, 0⟩ 4 rfl rfl (by norm_num) (by norm_num)⟩

/-- Claim C2: at the everywhere-constant height texture 1.0 (repeat 1, offset 0,
scale 1/10, input UV (1/2, 1/2), view (1/2, 0, 1), 4 layers) the final
interpolation's denominator `afterDepth - beforeDepth` is exactly 0 in both
marches, and the source divides by it without any guard (`finalWeight` is the
division the source performs). -/
theorem final_interpolation_denominator_zero_unguarded :
    finalDenom ⟨constTex 1, 1, 0, 1 / 10⟩ ⟨0, 0⟩ ⟨0, 0⟩
        (standardPOMFinalState ⟨constTex 1, 1, 0, 1 / 10⟩ ⟨1 / 2, 1 / 2⟩ ⟨1 / 2, 0, 1⟩
          ⟨0, 0⟩ ⟨0, 0⟩ 4) = 0 ∧
      finalDenom ⟨constTex 1, 1, 0, 1 / 10⟩ ⟨0, 0⟩ ⟨0, 0⟩
        (terrainPOMFinalState ⟨constTex 1, 1, 0, 1 / 10⟩ ⟨1 / 2, 1 / 2⟩ ⟨1 / 2, 0, 1⟩
          ⟨0, 0⟩ ⟨0, 0⟩ 4) = 0 := by
  constructor <;>
    norm_num [standardPOMFinalState, terrainPOMFinalState, stdCoarseLoop, stdCoarseStep,
      terrainCoarseLoop, terrainCoarseStep, TerrainState.toMarchState, refineLoop,
      refineStep, finalDenom, getHeight, constTex, Vec2.mix, Vec2.sub, Vec2.scale, glmix]

/-- Counterexample to claim C3: in the terrain march over a height field that
drops from 0.9 to 0 across `u = 1/2` (repeat 1, offset 0, scale 1, view
(1, 0, 1), 2 layers, so the per-step UV offset is (1/2, 0)), the initial state
is below the surface (so the coarse loop does take a step), yet after one
coarse iteration `currentLayerHeight` has increased rather than strictly
decreased. -/
theorem terrain_step_layerHeight_nondecreasing_example :
    (TerrainState.mk ⟨1 / 2, 1 / 2⟩ 1
          (getHeight ⟨stepTex, 1, 0, 1⟩ ⟨1 / 2, 1 / 2⟩ ⟨0, 0⟩ ⟨0, 0⟩)
          ⟨1 / 2, 1 / 2⟩ 1).currentDepthMapValue <
        (TerrainState.mk ⟨1 / 2, 1 / 2⟩ 1
          (getHeight ⟨stepTex, 1, 0, 1⟩ ⟨1 / 2, 1 / 2⟩ ⟨0, 0⟩ ⟨0, 0⟩)
          ⟨1 / 2, 1 / 2⟩ 1).currentLayerHeight ∧
      ¬ (terrainCoarseLoop ⟨stepTex, 1, 0, 1⟩ ⟨0, 0⟩ ⟨0, 0⟩ ⟨1 / 2, 0⟩ 2 1
          (TerrainState.mk ⟨1 / 2, 1 / 2⟩ 1
            (getHeight ⟨stepTex, 1, 0, 1⟩ ⟨1 / 2, 1 / 2⟩ ⟨0, 0⟩ ⟨0, 0⟩)
            ⟨1 / 2, 1 / 2⟩ 1)).currentLayerHeight <
        (TerrainState.mk ⟨1 / 2, 1 / 2⟩ 1
          (getHeight ⟨stepTex, 1, 0, 1⟩ ⟨1 / 2, 1 / 2⟩ ⟨0, 0⟩ ⟨0, 0⟩)
          ⟨1 / 2, 1 / 2⟩ 1).currentLayerHeight := by
  constructor <;>
    norm_num [terrainCoarseLoop, terrainCoarseStep, getHeight, stepTex, Vec2.sub,
      Vec2.scale]

/-- Claim C3 (amended): a standard-policy coarse step always strictly decreases
`currentLayerHeight` when the layer depth `pomDisplacementScale / numLayers` is
positive; a terrain-policy coarse step strictly decreases it only under the
additional condition that the slope-modulated factor `1 + 2 * surfaceSlope` of
that step is positive. -/
theorem coarse_step_layerHeight_decrease_conditions
    (u : PomUniforms α) (dx dy delta : Vec2 α) (layerDepth numLayers : α)
    (s : MarchState α) (t : TerrainState α)
    (hld : 0 < layerDepth) (hs : 0 < u.pomDisplacementScale) (hn : 0 < numLayers)
    (hslope : 0 < 1 +
      (getHeight u (t.currentTexCoords.sub delta) dx dy - t.currentDepthMapValue) * 2) :
    (stdCoarseStep delta layerDepth s).currentLayerHeight < s.currentLayerHeight ∧
      (terrainCoarseStep u dx dy delta numLayers t).currentLayerHeight <
        t.currentLayerHeight := by
  constructor
  · unfold stdCoarseStep
    dsimp only
    linarith
  · unfold terrainCoarseStep
    dsimp only
    have hpos : 0 < u.pomDisplacementScale / numLayers *
        (1 + (getHeight u (t.currentTexCoords.sub delta) dx dy - t.currentDepthMapValue) * 2) :=
      mul_pos (div_pos hs hn) hslope
    linarith

/-- Witness for the amended claim C3: constant texture 1/2, scale 1, 4 layers,
layer depth 1/4, zero step offset (slope 0). -/
theorem coarse_step_layerHeight_decrease_conditions_witness :
    ((0 : ℚ) < 1 / 4 ∧ (0 : ℚ) < 1 ∧ (0 : ℚ) < 4 ∧
        (0 : ℚ) < 1 + (getHeight ⟨constTex (1 / 2), 1, 0, 1⟩
          ((Vec2.mk (1 / 2 : ℚ) (1 / 2)).sub ⟨0, 0⟩) ⟨0, 0⟩ ⟨0, 0⟩ - 1 / 2) * 2) ∧
      ((stdCoarseStep (⟨0, 0⟩ : Vec2 ℚ) (1 / 4)
            (MarchState.mk ⟨1 / 2, 1 / 2⟩ 1 ⟨1 / 2, 1 / 2⟩ 1)).currentLayerHeight <
          (MarchState.mk (⟨1 / 2, 1 / 2⟩ : Vec2 ℚ) 1 ⟨1 / 2, 1 / 2⟩ 1).currentLayerHeight ∧
        (terrainCoarseStep ⟨constTex (1 / 2), 1, 0, 1⟩ ⟨0, 0⟩ ⟨0, 0⟩ ⟨0, 0⟩ 4
            (TerrainState.mk ⟨1 / 2, 1 / 2⟩ 1 (1 / 2) ⟨1 / 2, 1 / 2⟩ 1)).currentLayerHeight <
          (TerrainState.mk (⟨1 / 2, 1 / 2⟩ : Vec2 ℚ) 1 (1 / 2) ⟨1 / 2, 1 / 2⟩ 1).currentLayerHeight) :=
  ⟨⟨by norm_num, by norm_num, by norm_num,
      by norm_num [getHeight, constTex, Vec2.sub, Vec2.scale]⟩,
    coarse_step_layerHeight_decrease_conditions ⟨constTex (1 / 2), 1, 0, 1⟩ ⟨0, 0⟩ ⟨0, 0⟩
      ⟨0, 0⟩ (1 / 4) 4 (MarchState.mk ⟨1 / 2, 1 / 2⟩ 1 ⟨1 / 2, 1 / 2⟩ 1)
      (TerrainState.mk ⟨1 / 2, 1 / 2⟩ 1 (1 / 2) ⟨1 / 2, 1 / 2⟩ 1)
      (by norm_num) (by norm_num) (by norm_num)
      (by norm_num [getHeight, constTex, Vec2.sub, Vec2.scale])⟩

/-- Claim C4: for any inputs with `uMinLayers ≤ uMaxLayers`, the layer count
computed by `main` lies in `[uMinLayers, uMaxLayers]`, in adaptive mode (mix by
the angle-times-distance mask) as well as in fixed mode (`uMaxLayers`). -/
theorem mainNumLayers_within_bounds (uUseDynamicLayers : Bool)
    (uMinLayers uMaxLayers : ℝ) (N worldViewDir vWorldPosition uCameraPosition : Vec3 ℝ)
    (hml : uMinLayers ≤ uMaxLayers) :
    uMinLayers ≤ mainNumLayers uUseDynamicLayers uMinLayers uMaxLayers N worldViewDir
        vWorldPosition uCameraPosition ∧
      mainNumLayers uUseDynamicLayers uMinLayers uMaxLayers N worldViewDir
        vWorldPosition uCameraPosition ≤ uMaxLayers := by
  unfold mainNumLayers
  dsimp only
  cases uUseDynamicLayers with
  | false => refine ⟨?_, ?_⟩ <;> simp [hml]
  | true =>
    simp only [if_true]
    have ha := angleMask_mem_unit N worldViewDir
    have hd := distanceMask_mem_unit vWorldPosition uCameraPosition
    have hm0 : 0 ≤ angleMask N worldViewDir * distanceMask vWorldPosition uCameraPosition :=
      mul_nonneg ha.1 hd.1
    have hm1 : angleMask N worldViewDir * distanceMask vWorldPosition uCameraPosition ≤ 1 := by
      have := mul_le_mul ha.2 hd.2 hd.1 zero_le_one
      simpa using this
    unfold glmix
    constructor
    · nlinarith [mul_nonneg hm0 (sub_nonneg.2 hml)]
    · nlinarith [mul_nonneg (sub_nonneg.2 hm1) (sub_nonneg.2 hml)]

/-- Witness for claim C4 in fixed mode at `uMinLayers = 8`, `uMaxLayers = 32`. -/
theorem mainNumLayers_within_bounds_witness :
    (8 : ℝ) ≤ 32 ∧
      ((8 : ℝ) ≤ mainNumLayers false 8 32 ⟨0, 0, 1⟩ ⟨0, 0, 1⟩ ⟨0, 0, 0⟩ ⟨0, 0, 0⟩ ∧
        mainNumLayers false 8 32 ⟨0, 0, 1⟩ ⟨0, 0, 1⟩ ⟨0, 0, 0⟩ ⟨0, 0, 0⟩ ≤ 32) :=
  ⟨by norm_num,
    mainNumLayers_within_bounds false 8 32 ⟨0, 0, 1⟩ ⟨0, 0, 1⟩ ⟨0, 0, 0⟩ ⟨0, 0, 0⟩
      (by norm_num)⟩

/-- Claim C5: for a fixed scene, the shadow factor is monotone nondecreasing in
`uShadowHardness` (over positive hardness values, the configured domain of this
divisor), and it always lies in `[0, 1]`. -/
theorem getShadow_monotone_in_hardness_and_in_unit_interval
    (u : PomUniforms α) (h1 h2 : α) (surfacePos tangentLightDir : Vec3 α)
    (dx dy : Vec2 α) (numLayers : ℕ) (hpos : 0 < h1) (hh : h1 ≤ h2) :
    getShadow u h1 surfacePos tangentLightDir dx dy numLayers ≤
        getShadow u h2 surfacePos tangentLightDir dx dy numLayers ∧
      0 ≤ getShadow u h1 surfacePos tangentLightDir dx dy numLayers ∧
        getShadow u h1 surfacePos tangentLightDir dx dy numLayers ≤ 1 := by
  unfold getShadow getShadowRun
  split_ifs with hz
  · exact ⟨le_rfl, le_rfl, zero_le_one⟩
  · dsimp only
    exact hardnessFactor_mono_bounds _ h1 h2
      (shadowLoop_shadow_nonneg _ _ _ _ _ _ _ le_rfl) hpos hh

/-- Witness for claim C5: constant texture 1/2, hardness 8 and 16. -/
theorem getShadow_monotone_in_hardness_witness :
    (0 : ℚ) < 8 ∧ (8 : ℚ) ≤ 16 ∧
      (getShadow ⟨constTex (1 / 2), 1, 0, 1⟩ 8 ⟨0, 0, 0⟩ ⟨0, 0, 1⟩ ⟨0, 0⟩ ⟨0, 0⟩ 2 ≤
          getShadow ⟨constTex (1 / 2), 1, 0, 1⟩ 16 ⟨0, 0, 0⟩ ⟨0, 0, 1⟩ ⟨0, 0⟩ ⟨0, 0⟩ 2 ∧
        0 ≤ getShadow ⟨constTex (1 / 2), 1, 0, 1⟩ 8 ⟨0, 0, 0⟩ ⟨0, 0, 1⟩ ⟨0, 0⟩ ⟨0, 0⟩ 2 ∧
          getShadow ⟨constTex (1 / 2), 1, 0, 1⟩ 8 ⟨0, 0, 0⟩ ⟨0, 0, 1⟩ ⟨0, 0⟩ ⟨0, 0⟩ 2 ≤ 1) :=
  ⟨by norm_num, by norm_num,
    getShadow_monotone_in_hardness_and_in_unit_interval ⟨constTex (1 / 2), 1, 0, 1⟩ 8 16
      ⟨0, 0, 0⟩ ⟨0, 0, 1⟩ ⟨0, 0⟩ ⟨0, 0⟩ 2 (by norm_num) (by norm_num)⟩

/-- Claim C6: each march's returned visibility flag is 0 exactly when the
final interpolated UV leaves `[0,1]²` elementwise (the UV itself is returned
unclamped), and a 0 flag trips the compositor's discard gate `alpha < 0.5`. -/
theorem pom_visible_iff_uv_in_unit_square_and_discard (u : PomUniforms α)
    (vUv : Vec2 α) (V : Vec3 α) (dx dy : Vec2 α) (numLayers : ℕ) :
    (((standardParallaxOcclusionMap u vUv V dx dy numLayers).z = 0 ↔
        ((standardParallaxOcclusionMap u vUv V dx dy numLayers).x < 0 ∨
          (standardParallaxOcclusionMap u vUv V dx dy numLayers).x > 1 ∨
          (standardParallaxOcclusionMap u vUv V dx dy numLayers).y < 0 ∨
          (standardParallaxOcclusionMap u vUv V dx dy numLayers).y > 1)) ∧
      ((standardParallaxOcclusionMap u vUv V dx dy numLayers).z = 0 →
        mainDiscards (standardParallaxOcclusionMap u vUv V dx dy numLayers).z)) ∧
    (((terrainParallaxOcclusionMap u vUv V dx dy numLayers).z = 0 ↔
        ((terrainParallaxOcclusionMap u vUv V dx dy numLayers).x < 0 ∨
          (terrainParallaxOcclusionMap u vUv V dx dy numLayers).x > 1 ∨
          (terrainParallaxOcclusionMap u vUv V dx dy numLayers).y < 0 ∨
          (terrainParallaxOcclusionMap u vUv V dx dy numLayers).y > 1)) ∧
      ((terrainParallaxOcclusionMap u vUv V dx dy numLayers).z = 0 →
        mainDiscards (terrainParallaxOcclusionMap u vUv V dx dy numLayers).z)) :=
  ⟨finalize_alpha_spec u dx dy (standardPOMFinalState u vUv V dx dy numLayers),
    finalize_alpha_spec u dx dy (terrainPOMFinalState u vUv V dx dy numLayers)⟩

/-- Claim C7: a tangent-space light direction with nonpositive z makes
`getShadow` return full shadow 0 immediately, with zero texture samples. -/
theorem getShadow_light_below_returns_zero_without_marching
    (u : PomUniforms α) (uShadowHardness : α) (surfacePos tangentLightDir : Vec3 α)
    (dx dy : Vec2 α) (numLayers : ℕ) (hz : tangentLightDir.z ≤ 0) :
    getShadow u uShadowHardness surfacePos tangentLightDir dx dy numLayers = 0 ∧
      getShadowSamples u uShadowHardness surfacePos tangentLightDir dx dy numLayers = 0 := by
  unfold getShadow getShadowSamples getShadowRun
  rw [if_pos hz]
  exact ⟨rfl, rfl⟩

/-- Witness for claim C7 at the light direction (0, 0, -1). -/
theorem getShadow_light_below_witness :
    (⟨0, 0, -1⟩ : Vec3 ℚ).z ≤ 0 ∧
      (getShadow ⟨constTex (1 / 2), 1, 0, 1⟩ 16 ⟨0, 0, 0⟩ ⟨0, 0, -1⟩ ⟨0, 0⟩ ⟨0, 0⟩ 4 = 0 ∧
        getShadowSamples ⟨constTex (1 / 2), 1, 0, 1⟩ 16 ⟨0, 0, 0⟩ ⟨0, 0, -1⟩ ⟨0, 0⟩ ⟨0, 0⟩ 4
          = 0) :=
  ⟨by norm_num,
    getShadow_light_below_returns_zero_without_marching ⟨constTex (1 / 2), 1, 0, 1⟩ 16
      ⟨0, 0, 0⟩ ⟨0, 0, -1⟩ ⟨0, 0⟩ ⟨0, 0⟩ 4 (by norm_num)⟩

/-- Claim C8: with the Tangent Frame Builder's displacement scale equal to 0,
both `calculateTBN` (exact mode) and `calculateSmoothTBN` (smooth mode) return
exactly the undisplaced base frame, performing no height-texture samples. -/
theorem tbn_zero_displacement_returns_base_frame (nrm : Vec3 α → Vec3 α)
    (u : VertexUniforms α) (pos norm tang : Vec3 α) (tangentW : α) (texCoord : Vec2 α)
    (hscale : u.uVertexDisplacementScale = 0) :
    calculateTBNRun nrm u pos norm tang tangentW texCoord =
        (baseTBN nrm u norm tang tangentW, 0) ∧
      calculateSmoothTBNRun nrm u pos norm tang tangentW texCoord =
        (baseTBN nrm u norm tang tangentW, 0) := by
  have h : u.uVertexDisplacementScale < 1 / 1000 := by rw [hscale]; norm_num
  exact ⟨by unfold calculateTBNRun; rw [if_pos h],
    by unfold calculateSmoothTBNRun; rw [if_pos h]⟩

/-- Witness for claim C8 over the rationals with the identity normalize and the
identity model matrix. -/
theorem tbn_zero_displacement_witness :
    (VertexUniforms.mk (fun _ => (0 : ℚ)) 0 idMat3).uVertexDisplacementScale = 0 ∧
      (calculateTBNRun id (VertexUniforms.mk (fun _ => (0 : ℚ)) 0 idMat3) ⟨0, 0, 0⟩
          ⟨0, 0, 1⟩ ⟨1, 0, 0⟩ 1 ⟨0, 0⟩ =
        (baseTBN id (VertexUniforms.mk (fun _ => (0 : ℚ)) 0 idMat3) ⟨0, 0, 1⟩ ⟨1, 0, 0⟩ 1, 0) ∧
      calculateSmoothTBNRun id (VertexUniforms.mk (fun _ => (0 : ℚ)) 0 idMat3) ⟨0, 0, 0⟩
          ⟨0, 0, 1⟩ ⟨1, 0, 0⟩ 1 ⟨0, 0⟩ =
        (baseTBN id (VertexUniforms.mk (fun _ => (0 : ℚ)) 0 idMat3) ⟨0, 0, 1⟩ ⟨1, 0, 0⟩ 1, 0)) :=
  ⟨rfl,
    tbn_zero_displacement_returns_base_frame id (VertexUniforms.mk (fun _ => (0 : ℚ)) 0 idMat3)
      ⟨0, 0, 0⟩ ⟨0, 0, 1⟩ ⟨1, 0, 0⟩ 1 ⟨0, 0⟩ rfl⟩

/-- Claim C9: `getHeight` applies the tiling transform by scaling the UV and
both screen-space derivatives by the repeat factor — it samples the height
texture at `uv * repeatFactor` with derivatives `ddx * repeatFactor` and
`ddy * repeatFactor`, equivalently it agrees with the repeat-1 sampler at the
scaled arguments. -/
theorem getHeight_scales_uv_and_derivatives_by_repeat
    (tex : Vec2 α → Vec2 α → Vec2 α → α) (repeatFactor off scale : α)
    (uv dx dy : Vec2 α) :
    getHeight ⟨tex, repeatFactor, off, scale⟩ uv dx dy =
        (tex (uv.scale repeatFactor) (dx.scale repeatFactor) (dy.scale repeatFactor) + off)
          * scale ∧
      getHeight ⟨tex, repeatFactor, off, scale⟩ uv dx dy =
        getHeight ⟨tex, 1, off, scale⟩ (uv.scale repeatFactor) (dx.scale repeatFactor)
          (dy.scale repeatFactor) := by
  refine ⟨rfl, ?_⟩
  unfold getHeight
  simp [Vec2.scale]

/-- Claim C10: `main` boosts the world light direction's z to at least
`(1.0 + uParallaxOffset) + 0.5` before renormalizing, then raises the
tangent-space light direction's z to at least `0.2` before renormalizing, so
the tangent light direction finally passed to `getShadow` always has positive
z and the `lightDir.z ≤ 0` full-shadow branch of `getShadow` cannot fire from
`main`. -/
theorem main_light_boost_makes_shadow_guard_unreachable
    (uLightDirection : Vec3 ℝ) (uParallaxOffset : ℝ) (T B N : Vec3 ℝ) :
    (1 + uParallaxOffset) + 1 / 2 ≤
        (boostedWorldPreNormalize uLightDirection uParallaxOffset).z ∧
      1 / 5 ≤ (tangentLightPreNormalize T B N
        (boostedWorldLightDir uLightDirection uParallaxOffset)).z ∧
      0 < (adjustedTangentLightDir T B N
        (boostedWorldLightDir uLightDirection uParallaxOffset)).z ∧
      ¬ (adjustedTangentLightDir T B N
        (boostedWorldLightDir uLightDirection uParallaxOffset)).z ≤ 0 := by
  have hz : 0 < (adjustedTangentLightDir T B N
      (boostedWorldLightDir uLightDirection uParallaxOffset)).z := by
    unfold adjustedTangentLightDir
    dsimp only
    split_ifs with h
    · unfold normalize3R length3R
      dsimp only
      apply div_pos (by norm_num)
      exact Real.sqrt_pos.2 (by positivity)
    · push_neg at h
      linarith
  refine ⟨?_, ?_, hz, not_le.2 hz⟩
  · unfold boostedWorldPreNormalize
    dsimp only
    split_ifs with h
    · linarith
    · push_neg at h
      linarith
  · unfold tangentLightPreNormalize
    dsimp only
    split_ifs with h
    · norm_num
    · push_neg at h
      linarith

end Claims

end POM
